import Mathlib

/-!
Verification of the slot-machine deployment daemon (louije/slot-machine).

This file is a shallow embedding, in Lean 4, of the parts of the Go source
that the specification's claims are about:

* `cmd/slot-machine/proxy.go` — the dynamic reverse proxy
  (`setTarget`, `clearTarget`, `serveHTTP` and its intercept condition);
* `cmd/slot-machine/main.go` — the orchestrator state, the deploy pipeline
  (`doDeploy`), the rollback pipeline (`doRollback`), the HTTP handlers
  (`handleDeploy` validation, `handleStatus`);
* `cmd/slot-machine/slot.go` — `buildEnv`, `startProcess`, `drain`;
* the worktree helper file — `applySharedDirs`;
* the helpers file — `loadEnvFile`.

Modelling conventions:

* Go strings are Lean `String`s; the Go byte-level operations used by the
  source (`strings.HasPrefix`, `strings.TrimSpace`, `strings.Contains`,
  path splitting) are re-implemented over the character list `String.data`
  (all commit hashes, paths and env lines in this system are ASCII, where
  bytes and characters coincide).
* External effects (git worktree operations, `findFreePort`, the setup
  command, process spawning, the health-check loop) are modelled by an
  oracle record `DeployEnv` holding each call's outcome; the pipelines are
  pure state transformers over that oracle.
* The single Go mutex serialises the pipelines, so each pipeline is
  modelled as one atomic state transformer; the `deploying` flag handling
  (acquire at entry, release by `defer` at exit) is kept explicit.
* Side effects on the process tree and the filesystem that do not feed
  back into orchestrator state (SIGKILL + wait, drains, worktree removal,
  symlink updates, journal appends) are recorded in an event trace.
* A Go panic (string slicing out of bounds in `commit[:8]`) is modelled by
  the pipeline returning `none`.
-/

namespace SlotMachine

/-- Model of Go `strings.HasPrefix s pre` over character lists. -/
def goStartsWith (s pre : String) : Bool :=
  pre.data.isPrefixOf s.data

/-- Model of Go `strings.TrimSpace` (trim whitespace from both ends). -/
def goTrimSpace (s : String) : String :=
  ⟨((s.data.dropWhile Char.isWhitespace).reverse.dropWhile Char.isWhitespace).reverse⟩

/-- Model of Go `strings.Contains s "="` for a single-character needle. -/
def goContainsChar (s : String) (c : Char) : Bool :=
  s.data.contains c

/-- Model of Go `filepath.Join a b` for already-clean components (the
cleaning pass of `filepath.Join` is the identity on every path this
program joins). -/
def joinPath (a b : String) : String :=
  a ++ "/" ++ b

/-- Model of Go `filepath.Base` for paths without trailing slashes (the
only form the program produces). -/
def baseName (p : String) : String :=
  ⟨(p.data.splitOn '/').getLastD p.data⟩

/-- Model of the Go string slice `s[:n]`: defined only when `n ≤ len(s)`,
otherwise Go panics with a slice-bounds error (`none` here). -/
def goStringTake (s : String) (n : Nat) : Option String :=
  if n ≤ s.data.length then some ⟨s.data.take n⟩ else none

/-! ## Dynamic reverse proxy (`proxy.go`)

State of one `dynamicProxy` value.  `srvLive` models `p.srv != nil`
(an `http.Server` with a live TCP listener); `hasIntercept` models
`p.intercept != nil`.  `net.Listen` is assumed to succeed (its failure
merely leaves `srv` nil, which no claim depends on). -/

structure DynamicProxy where
  port : Nat
  addr : String
  srvLive : Bool
  hasIntercept : Bool
deriving Repr, DecidableEq

/-- `newDynamicProxy(addr, intercept)` — proxy.go line 21. -/
def newDynamicProxy (addr : String) (hasIntercept : Bool) : DynamicProxy :=
  { port := 0, addr := addr, srvLive := false, hasIntercept := hasIntercept }

/-- `(p *dynamicProxy) setTarget(port)` — proxy.go lines 25–37: record the
port; lazily start the listener when the port is positive, no server is
running and an address is configured. -/
def setTarget (p : DynamicProxy) (port : Nat) : DynamicProxy :=
  let p' := { p with port := port }
  if 0 < port ∧ p'.srvLive = false ∧ p'.addr ≠ "" then
    { p' with srvLive := true }
  else p'

/-- `(p *dynamicProxy) clearTarget()` — proxy.go lines 39–47: set the port
to 0 AND close the server (`p.srv.Close(); p.srv = nil`), dropping the
TCP listener. -/
def clearTarget (p : DynamicProxy) : DynamicProxy :=
  { p with port := 0, srvLive := false }

/-- Intercept condition of `serveHTTP` — proxy.go line 61:
`p.intercept != nil && (strings.HasPrefix(path, "/agent/") || path == "/chat")`. -/
def interceptHit (hasIntercept : Bool) (path : String) : Bool :=
  hasIntercept && (goStartsWith path "/agent/" || path == "/chat")

/-- What `serveHTTP` does with one request — proxy.go lines 59–82. -/
inductive ProxyDecision where
  /-- the request is dispatched to the intercept handler -/
  | intercepted
  /-- `http.Error(w, "no live slot", 503)` -/
  | noLiveSlot
  /-- reverse-proxied to `http://127.0.0.1:<port>` -/
  | forward (port : Nat)
deriving Repr, DecidableEq

/-- `(p *dynamicProxy) serveHTTP` — proxy.go lines 59–82. -/
def serveHTTP (p : DynamicProxy) (path : String) : ProxyDecision :=
  if interceptHit p.hasIntercept path then .intercepted
  else if p.port = 0 then .noLiveSlot
  else .forward p.port

/-- TCP-level outcome of a client request: `serveHTTP` only runs for
connections accepted by a live listener; with `srv = nil` there is no
listener and the connection is refused (net/http semantics). -/
inductive ConnOutcome where
  | refused
  | handled (d : ProxyDecision)
deriving Repr, DecidableEq

/-- A client request against the proxy's public address. -/
def requestProxy (p : DynamicProxy) (path : String) : ConnOutcome :=
  if p.srvLive then .handled (serveHTTP p path) else .refused

/-- Transcription of the specification's intercept-path set, for comparison
with the code's `interceptHit`: "exactly `/chat`, prefix `/chat/`, prefix
`/agent/`". -/
def specInterceptPath (path : String) : Bool :=
  path == "/chat" || goStartsWith path "/chat/" || goStartsWith path "/agent/"

/-! ## Orchestrator data model (`main.go`, `slot.go`) -/

/-- The `slot` struct of `slot.go`.  `hasProc` models `cmd != nil` (a cold
recovered `prev` slot has no process); `alive` is the flag set at spawn and
cleared by the exit watcher.  The `done` channel is implicit: waiting on it
always succeeds after a kill, so it needs no state. -/
structure Slot where
  name : String
  commit : String
  dir : String
  alive : Bool
  hasProc : Bool
  appPort : Nat
  intPort : Nat
deriving Repr, DecidableEq

/-- The `config` struct (`config.go`); the agent/chat fields that the
excluded chat subsystem reads are irrelevant to the pipelines and carried
only as `sharedDirs` needs them. -/
structure Config where
  setupCommand : String
  startCommand : String
  port : Nat
  internalPort : Nat
  healthEndpoint : String
  healthTimeoutMs : Nat
  drainTimeoutMs : Nat
  envFile : String
  apiPort : Nat
  sharedDirs : List String
deriving Repr, DecidableEq

/-- The mutable orchestrator state guarded by the mutex (`main.go`):
`liveSlot`, `prevSlot`, `deploying`, `lastDeploy`, and the two proxies.
`lastDeploy` is an abstract timestamp; `0` is Go's zero time. -/
structure OrchState where
  live : Option Slot
  prev : Option Slot
  deploying : Bool
  lastDeploy : Nat
  appProxy : DynamicProxy
  intProxy : DynamicProxy
deriving Repr, DecidableEq

/-- `deployResponse` (`main.go`); Go zero values are the field defaults. -/
structure DeployResponse where
  success : Bool := false
  slot : String := ""
  commit : String := ""
  previousCommit : String := ""
  error : String := ""
deriving Repr, DecidableEq

/-- `rollbackResponse` (`main.go`). -/
structure RollbackResponse where
  success : Bool := false
  slot : String := ""
  commit : String := ""
  error : String := ""
deriving Repr, DecidableEq

/-- `statusResponse` (`main.go`).  `lastDeployTime` abstracts the RFC3339
string: `0` encodes the empty string (zero time), any other value stands
for the formatted `lastDeploy` timestamp. -/
structure StatusResponse where
  liveSlot : String := ""
  liveCommit : String := ""
  previousSlot : String := ""
  previousCommit : String := ""
  stagingDir : String := ""
  lastDeployTime : Nat := 0
  healthy : Bool := false
deriving Repr, DecidableEq

/-- `handleStatus` (`main.go` v2 handler): read the slots under the mutex
and report their names, commits and liveness. -/
def handleStatus (o : OrchState) : StatusResponse :=
  let r : StatusResponse := { stagingDir := "slot-staging" }
  let r := match o.live with
    | some l => { r with liveSlot := l.name, liveCommit := l.commit, healthy := l.alive }
    | none => r
  let r := match o.prev with
    | some p => { r with previousSlot := p.name, previousCommit := p.commit }
    | none => r
  if o.lastDeploy ≠ 0 then { r with lastDeployTime := o.lastDeploy } else r

/-- Outcome of the request validation in `handleDeploy` (`main.go`): a
body that fails to decode or carries an empty commit is rejected with 400
"missing commit"; any other commit string reaches `doDeploy`. -/
inductive DeployRequestOutcome where
  | rejected400
  | accepted (commit : String)
deriving Repr, DecidableEq

/-- The validation step of `handleDeploy` (`main.go`): `none` stands for a
JSON decode error. -/
def handleDeployParse (body : Option String) : DeployRequestOutcome :=
  match body with
  | none => .rejected400
  | some c => if c = "" then .rejected400 else .accepted c

/-! ## Pipeline oracle and event trace -/

/-- Oracle for the external effects one pipeline run performs, in call
order: `prepareSlot` (git worktree), two `findFreePort` calls, the setup
command, `cmd.Start()`, the health-check loop, and the `promoteStaging`
rename.  Error strings mirror Go's `err.Error()` texts. -/
structure DeployEnv where
  prepareOk : Bool
  prepareErr : String
  appPort : Option Nat
  intPort : Option Nat
  portErr : String
  setupOk : Bool
  setupErr : String
  startOk : Bool
  startErr : String
  healthy : Bool
  promoteOk : Bool
  now : Nat
deriving Repr, DecidableEq

/-- Effects of a pipeline run that do not feed back into orchestrator
state: signals sent to process groups, worktree and symlink filesystem
updates, and the journal append. -/
inductive Event where
  /-- `syscall.Kill(-pid, SIGKILL)` on the named slot followed by `<-done` -/
  | sigkillWait (slotName : String)
  /-- `o.drain(slot)`: SIGTERM, bounded wait, SIGKILL on timeout -/
  | drain (slotName : String)
  /-- `o.removeWorktree(dir)` -/
  | removeWorktree (dir : String)
  /-- `atomicSymlink(linkPath, target)` -/
  | putSymlink (linkPath target : String)
  /-- `o.createStaging(srcDir, commit)` -/
  | createStaging (srcDir commit : String)
  /-- `o.appendJournal(action, commit, slotDir, prevCommit)` -/
  | journal (action commit slotDir prevCommit : String)
deriving Repr, DecidableEq

/-- Result of one `doDeploy` run: final state, response, HTTP status code
and the event trace. -/
structure DeployOutcome where
  state : OrchState
  resp : DeployResponse
  code : Nat
  events : List Event
deriving Repr, DecidableEq

/-- Result of one `doRollback` run. -/
structure RollbackOutcome where
  state : OrchState
  resp : RollbackResponse
  code : Nat
  events : List Event
deriving Repr, DecidableEq

/-- The lock acquisition at pipeline entry (`main.go`): under the mutex,
reject when `deploying` is already set, otherwise set it. -/
def acquireDeployLock (o : OrchState) : Option OrchState :=
  if o.deploying then none else some { o with deploying := true }

/-- The deferred lock release at pipeline exit (`main.go`): under the
mutex, clear `deploying`. -/
def releaseDeployLock (o : OrchState) : OrchState :=
  { o with deploying := false }

/-- `startProcess` (`slot.go` lines 67–106): spawn `/bin/sh -c start_command`
in `dir` with the composed environment; the new slot is named after the
directory basename, marked alive, and carries the two dynamic ports. -/
def startProcess (dir commit : String) (appPort intPort : Nat) : Slot :=
  { name := baseName dir, commit := commit, dir := dir,
    alive := true, hasProc := true, appPort := appPort, intPort := intPort }

/-- Net effect of `o.drain(s)` (`slot.go` lines 123–136) on the drained
slot object: the process (when there is one) exits — by SIGTERM or by the
SIGKILL escalation — and the exit watcher clears `alive`.  The watcher's
proxy-clearing branch never fires during a pipeline drain because both
pipelines update `liveSlot` before draining the old live (and the other
drained slots are never `liveSlot`). -/
def drainSlot (s : Slot) : Slot :=
  if s.hasProc then { s with alive := false } else s

/-! ## Deploy pipeline (`main.go`, `doDeploy`) -/

/-- `doDeploy` (`main.go` v2, lines 969–1090), as one atomic state
transformer over the oracle.  Control flow follows the source exactly:
busy rejection (409), staging checkout, two port draws, optional setup,
process start, health check; on unhealthy SIGKILL + wait and a 200 with
`success:false`; on healthy the promotion sequence (GC old prev, rename
staging — falling back to the staging path on failure —, retarget both
proxies, swap `prev`/`live` under the lock, drain the old live, update the
symlinks, recreate staging, append the journal record).  The result is
`none` exactly when Go panics: the slot-name computation `commit[:8]` with
`len(commit) < 8`. -/
def doDeploy (o : OrchState) (dataDir : String) (cfg : Config) (commit : String)
    (env : DeployEnv) : Option DeployOutcome :=
  match acquireDeployLock o with
  | none =>
    some { state := o, resp := { error := "deploy in progress" }, code := 409, events := [] }
  | some o1 =>
    let oldLive := o.live
    let oldPrev := o.prev
    let stagingDir := joinPath dataDir "slot-staging"
    if env.prepareOk = false then
      some { state := releaseDeployLock o1, resp := { error := env.prepareErr },
             code := 500, events := [] }
    else match env.appPort with
    | none =>
      some { state := releaseDeployLock o1, resp := { error := "free port: " ++ env.portErr },
             code := 500, events := [] }
    | some appPort =>
      match env.intPort with
      | none =>
        some { state := releaseDeployLock o1, resp := { error := "free port: " ++ env.portErr },
               code := 500, events := [] }
      | some intPort =>
        if cfg.setupCommand ≠ "" ∧ env.setupOk = false then
          some { state := releaseDeployLock o1, resp := { error := "setup: " ++ env.setupErr },
                 code := 500, events := [] }
        else if env.startOk = false then
          some { state := releaseDeployLock o1, resp := { error := "start: " ++ env.startErr },
                 code := 500, events := [] }
        else
          let newSlot := startProcess stagingDir commit appPort intPort
          if env.healthy = false then
            some { state := releaseDeployLock o1, resp := {}, code := 200,
                   events := [.sigkillWait newSlot.name] }
          else
            match goStringTake commit 8 with
            | none => none
            | some c8 =>
              let slotName0 := "slot-" ++ c8
              let slotDir0 := joinPath dataDir slotName0
              let gcEvents : List Event := match oldPrev with
                | some p => [.drain p.name, .removeWorktree p.dir]
                | none => []
              let slotDir := if env.promoteOk then slotDir0 else stagingDir
              let slotName := if env.promoteOk then slotName0 else "slot-staging"
              let newSlot' := { newSlot with dir := slotDir, name := slotName }
              let o2 := { o1 with
                appProxy := setTarget o1.appProxy appPort,
                intProxy := setTarget o1.intProxy intPort }
              let prevCommit := match oldLive with
                | some l => l.commit
                | none => ""
              let o3 := { o2 with
                prev := oldLive.map drainSlot,
                live := some newSlot',
                lastDeploy := env.now }
              let drainEvents : List Event := match oldLive with
                | some l => [.drain l.name]
                | none => []
              let linkEvents : List Event :=
                .putSymlink (joinPath dataDir "live") slotName ::
                (match oldLive with
                  | some l => [.putSymlink (joinPath dataDir "prev") l.name]
                  | none => [])
              some { state := releaseDeployLock o3,
                     resp := { success := true, slot := slotName, commit := commit,
                               previousCommit := prevCommit },
                     code := 200,
                     events := gcEvents ++ drainEvents ++ linkEvents
                       ++ [.createStaging slotDir commit,
                           .journal "deploy" commit slotName prevCommit] }

/-! ## Rollback pipeline (`main.go`, `doRollback`) -/

/-- `doRollback` (`main.go` v2, lines 1096–1169): busy rejection (409),
missing-prev rejection (400), two fresh port draws, restart of the prev
slot's directory, health check; on unhealthy SIGKILL + wait and a 500
"health check failed"; on healthy retarget both proxies, rename the new
process to the prev slot's name, swap `live`/`prev` under the lock, drain
the old live, update the symlinks, recreate staging. -/
def doRollback (o : OrchState) (dataDir : String) (env : DeployEnv) : RollbackOutcome :=
  if o.deploying then
    { state := o, resp := { error := "deploy in progress" }, code := 409, events := [] }
  else match o.prev with
  | none =>
    { state := o, resp := { error := "no previous slot" }, code := 400, events := [] }
  | some prev =>
    let oldLive := o.live
    let o1 : OrchState := { o with deploying := true }
    match env.appPort with
    | none =>
      { state := releaseDeployLock o1, resp := { error := "free port: " ++ env.portErr },
        code := 500, events := [] }
    | some appPort =>
      match env.intPort with
      | none =>
        { state := releaseDeployLock o1, resp := { error := "free port: " ++ env.portErr },
          code := 500, events := [] }
      | some intPort =>
        if env.startOk = false then
          { state := releaseDeployLock o1, resp := { error := "start: " ++ env.startErr },
            code := 500, events := [] }
        else
          let newSlot := startProcess prev.dir prev.commit appPort intPort
          if env.healthy = false then
            { state := releaseDeployLock o1, resp := { error := "health check failed" },
              code := 500, events := [.sigkillWait newSlot.name] }
          else
            let o2 := { o1 with
              appProxy := setTarget o1.appProxy appPort,
              intProxy := setTarget o1.intProxy intPort }
            let newSlot' := { newSlot with name := prev.name }
            let o3 := { o2 with
              live := some newSlot',
              prev := oldLive.map drainSlot,
              lastDeploy := env.now }
            let drainEvents : List Event := match oldLive with
              | some l => [.drain l.name]
              | none => []
            let linkEvents : List Event :=
              .putSymlink (joinPath dataDir "live") prev.name ::
              (match oldLive with
                | some l => [.putSymlink (joinPath dataDir "prev") l.name]
                | none => [])
            { state := releaseDeployLock o3,
              resp := { success := true, slot := prev.name, commit := prev.commit },
              code := 200,
              events := drainEvents ++ linkEvents
                ++ [.createStaging prev.dir prev.commit] }


/-! ## Environment composition (`slot.go` `buildEnv`, helpers `loadEnvFile`) -/

/-- `loadEnvFile` (helpers file, lines 13–32), applied to the file's lines:
trim each line, drop blank lines and `#` comments, keep only lines that
contain an `=`.  The kept entries are the trimmed lines, in file order. -/
def loadEnvFile (lines : List String) : List String :=
  (lines.map goTrimSpace).filter fun l =>
    !(l == "") && !(goStartsWith l "#") && goContainsChar l '='

/-- Model of Go `filepath.IsAbs` on Unix. -/
def goIsAbs (p : String) : Bool :=
  goStartsWith p "/"

/-- The env-file path resolution inside `buildEnv` (`slot.go` lines 48–51):
a relative `env_file` is joined onto the repo directory. -/
def resolveEnvPath (repoDir p : String) : String :=
  if goIsAbs p then p else joinPath repoDir p

/-- `buildEnv` (`slot.go` lines 45–65): start from the daemon's environment
(`os.Environ()`), append the parsed `env_file` entries when the file is
configured and readable (an open error is silently ignored), append the
three authoritative variables, and finally — only when the agent subsystem
configured an auth secret — `SLOT_MACHINE_AUTH_SECRET`.  `readFileLines`
is the filesystem oracle: the lines of the named file, or `none` when the
open fails. -/
def buildEnv (daemonEnv : List String) (repoDir envFile : String)
    (readFileLines : String → Option (List String)) (authSecret : String)
    (appPort intPort : Nat) : List String :=
  let env := daemonEnv
  let env := if envFile ≠ "" then
      match readFileLines (resolveEnvPath repoDir envFile) with
      | some ls => env ++ loadEnvFile ls
      | none => env
    else env
  let env := env ++ ["SLOT_MACHINE=1", "PORT=" ++ Nat.repr appPort,
                     "INTERNAL_PORT=" ++ Nat.repr intPort]
  if authSecret ≠ "" then env ++ ["SLOT_MACHINE_AUTH_SECRET=" ++ authSecret] else env

/-- Key of one `KEY=VALUE` environment entry (everything before the first
`=`). -/
def envEntryKey (e : String) : String :=
  ⟨e.data.takeWhile (fun c => c ≠ '=')⟩

/-- Value of one `KEY=VALUE` environment entry. -/
def envEntryVal (e : String) : String :=
  ⟨(e.data.dropWhile (fun c => c ≠ '=')).drop 1⟩

/-- Effective value a spawned process observes for `key`: Go's `os/exec`
deduplicates the environment keeping the last occurrence of each key, so
the effective binding is the last entry whose key matches. -/
def envValue (env : List String) (key : String) : Option String :=
  ((env.filter fun e => envEntryKey e == key).getLast?).map envEntryVal

/-! ## Shared directories (`applySharedDirs` and a small filesystem model) -/

/-- One step of `filepath.Clean` segment processing: drop empty and `.`
segments; `..` pops the previous segment (kept literally at the front of a
relative path, dropped at the root of an absolute one).  `acc` holds the
output segments in reverse. -/
def cleanStep (abs : Bool) (acc : List String) (s : String) : List String :=
  if s = "" || s = "." then acc
  else if s = ".." then
    match acc with
    | [] => if abs then [] else [".."]
    | a :: acc' => if a = ".." then ".." :: a :: acc' else acc'
  else s :: acc

/-- Join path segments with `/`. -/
def joinSegs : List String → String
  | [] => ""
  | [x] => x
  | x :: xs => x ++ "/" ++ joinSegs xs

/-- Model of Go `filepath.Clean`. -/
def cleanPath (p : String) : String :=
  let abs := goIsAbs p
  let segs := (((p.data.splitOn '/').map fun l => (⟨l⟩ : String)).foldl (cleanStep abs) []).reverse
  let body := joinSegs segs
  if abs then (if body = "" then "/" else "/" ++ body)
  else if body = "" then "." else body

/-- A filesystem node, for the shared-dirs model. -/
inductive FsNode where
  | dir
  | file (content : String)
  | symlink (target : String)
deriving Repr, DecidableEq

/-- A finite filesystem: absolute path → node.  Parent directories are
modelled implicitly (a path's existence implies its parents). -/
abbrev Fs := List (String × FsNode)

def fsLookup (fs : Fs) (p : String) : Option FsNode :=
  (fs.find? fun e => e.1 == p).map Prod.snd

/-- `os.RemoveAll(p)`: drop `p` and everything below it. -/
def fsRemoveAll (fs : Fs) (p : String) : Fs :=
  fs.filter fun e => !(e.1 == p || goStartsWith e.1 (p ++ "/"))

/-- `os.MkdirAll(p)`: create the directory when nothing is at `p`
(intermediate parents are implicit in this model). -/
def fsMkdirAll (fs : Fs) (p : String) : Fs :=
  if (fsLookup fs p).isSome then fs else fs ++ [(p, .dir)]

/-- `os.Symlink(target, p)` after the preceding `RemoveAll(p)`. -/
def fsSymlink (fs : Fs) (target p : String) : Fs :=
  if (fsLookup fs p).isSome then fs else fs ++ [(p, .symlink target)]

/-- One iteration of the `applySharedDirs` loop (worktree helper file,
lines 136–157): clean the configured name, skip `.`, `..` and absolute
paths; otherwise `MkdirAll` the canonical repo location, `RemoveAll` the
slot's copy, and symlink the slot path to the (absolute) repo target. -/
def applySharedDirsOne (repoDir slotDir : String) (fs : Fs) (name0 : String) : Fs :=
  let name := cleanPath name0
  if name = "." ∨ name = ".." ∨ goIsAbs name then fs
  else
    let target := joinPath repoDir name
    let slotPath := joinPath slotDir name
    let fs := fsMkdirAll fs target
    let fs := fsRemoveAll fs slotPath
    fsSymlink fs target slotPath

/-- `applySharedDirs(slotDir)` (worktree helper file, lines 131–158). -/
def applySharedDirs (repoDir slotDir : String) (sharedDirs : List String) (fs : Fs) : Fs :=
  sharedDirs.foldl (applySharedDirsOne repoDir slotDir) fs

/-! ## Reachability of orchestrator states -/

/-- States reachable from the empty boot state by any sequence of
`doDeploy` and `doRollback` runs (panicking deploys reach no new state). -/
inductive Reachable (dataDir : String) (cfg : Config) : OrchState → Prop where
  | boot (appProxy intProxy : DynamicProxy) :
      Reachable dataDir cfg
        { live := none, prev := none, deploying := false, lastDeploy := 0,
          appProxy := appProxy, intProxy := intProxy }
  | deployStep {s : OrchState} {out : DeployOutcome} (commit : String) (env : DeployEnv) :
      Reachable dataDir cfg s →
      doDeploy s dataDir cfg commit env = some out →
      Reachable dataDir cfg out.state
  | rollbackStep {s : OrchState} (env : DeployEnv) :
      Reachable dataDir cfg s →
      Reachable dataDir cfg (doRollback s dataDir env).state

/-- Reachability restricted to deploys whose commit differs from the
commit currently live (the restriction the amended claim C3 needs). -/
inductive ReachableDistinct (dataDir : String) (cfg : Config) : OrchState → Prop where
  | boot (appProxy intProxy : DynamicProxy) :
      ReachableDistinct dataDir cfg
        { live := none, prev := none, deploying := false, lastDeploy := 0,
          appProxy := appProxy, intProxy := intProxy }
  | deployStep {s : OrchState} {out : DeployOutcome} (commit : String) (env : DeployEnv) :
      ReachableDistinct dataDir cfg s →
      (∀ l, s.live = some l → l.commit ≠ commit) →
      doDeploy s dataDir cfg commit env = some out →
      ReachableDistinct dataDir cfg out.state
  | rollbackStep {s : OrchState} (env : DeployEnv) :
      ReachableDistinct dataDir cfg s →
      ReachableDistinct dataDir cfg (doRollback s dataDir env).state

/-! ## Concrete fixtures

Used by the closed counterexample and witness theorems: a proxy pair, an
empty boot state, a minimal configuration, an all-success oracle, and the
states after concrete deploys. -/

def exProxyApp : DynamicProxy := newDynamicProxy "127.0.0.1:3000" true

def exProxyInt : DynamicProxy := newDynamicProxy "127.0.0.1:3901" false

def exInit : OrchState :=
  { live := none, prev := none, deploying := false, lastDeploy := 0,
    appProxy := exProxyApp, intProxy := exProxyInt }

def exCfg : Config :=
  { setupCommand := "", startCommand := "node server.js", port := 3000,
    internalPort := 3901, healthEndpoint := "/healthz", healthTimeoutMs := 3000,
    drainTimeoutMs := 2000, envFile := "", apiPort := 9100, sharedDirs := [] }

def exDataDir : String := "/srv/app/.slot-machine"

def exEnvOk : DeployEnv :=
  { prepareOk := true, prepareErr := "", appPort := some 4001, intPort := some 4002,
    portErr := "", setupOk := true, setupErr := "", startOk := true, startErr := "",
    healthy := true, promoteOk := true, now := 1 }

/-- A proxy that is currently serving (a live listener, a recorded
upstream), as after a successful deploy. -/
def exProxyServing : DynamicProxy :=
  { port := 5177, addr := "127.0.0.1:3000", srvLive := true, hasIntercept := false }

/-- Two distinct full-length (40 hex characters) commit hashes. -/
def exCommitA : String := "a1b2c3d4e5f6071829304a5b6c7d8e9f00112233"

def exCommitB : String := "beefcafe0123456789abcdef0123456789abcdef"

/-- Final state of a deploy outcome, with a fallback for `none`. -/
def stateAfterDeploy (o : Option DeployOutcome) (fallback : OrchState) : OrchState :=
  match o with
  | some out => out.state
  | none => fallback

def exEnvOk2 : DeployEnv := { exEnvOk with appPort := some 4003, intPort := some 4004, now := 2 }

def exEnvOk3 : DeployEnv := { exEnvOk with appPort := some 4005, intPort := some 4006, now := 3 }

/-- Outcome of deploying `exCommitA` on the boot state. -/
def exOutA : DeployOutcome :=
  (doDeploy exInit exDataDir exCfg exCommitA exEnvOk).getD
    { state := exInit, resp := {}, code := 0, events := [] }

def exStA : OrchState := exOutA.state

/-- Outcome of re-deploying `exCommitA` on top of itself (the claim C3
counterexample step). -/
def exOutAA : DeployOutcome :=
  (doDeploy exStA exDataDir exCfg exCommitA exEnvOk2).getD
    { state := exStA, resp := {}, code := 0, events := [] }

def exStAA : OrchState := exOutAA.state

/-- Outcome of deploying `exCommitB` after `exCommitA` (distinct commits). -/
def exOutAB : DeployOutcome :=
  (doDeploy exStA exDataDir exCfg exCommitB exEnvOk2).getD
    { state := exStA, resp := {}, code := 0, events := [] }

def exStAB : OrchState := exOutAB.state

/-- A placeholder slot for total projections out of `Option Slot`. -/
def exNoSlot : Slot :=
  { name := "", commit := "", dir := "", alive := false, hasProc := false,
    appPort := 0, intPort := 0 }

def exLiveAB : Slot := exStAB.live.getD exNoSlot

def exPrevAB : Slot := exStAB.prev.getD exNoSlot

/-- The boot state with the deploy lock held. -/
def exBusy : OrchState := { exInit with deploying := true }

/-- A cold previous slot (no running process), as recovery constructs. -/
def exSlotPrev : Slot :=
  { name := "slot-beefcafe", commit := exCommitB,
    dir := joinPath exDataDir "slot-beefcafe",
    alive := false, hasProc := false, appPort := 4001, intPort := 4002 }

/-- A state with only a previous slot to roll back to. -/
def exWithPrev : OrchState := { exInit with prev := some exSlotPrev }

/-- The all-success oracle, but with a failing health check. -/
def exEnvUnhealthy : DeployEnv := { exEnvOk with healthy := false }

/-- The entries `buildEnv` appends from the env file: empty when no
`env_file` is configured or the open fails. -/
def envFileEntries (repoDir envFile : String)
    (readFileLines : String → Option (List String)) : List String :=
  if envFile ≠ "" then
    match readFileLines (resolveEnvPath repoDir envFile) with
    | some ls => loadEnvFile ls
    | none => []
  else []

/-- A daemon environment for the concrete env-composition witness. -/
def exDaemonEnv : List String := ["HOME=/root", "PORT=9999"]

/-- A filesystem oracle with one env file at `/repo/.env`. -/
def exReadEnv : String → Option (List String) :=
  fun p => if p = "/repo/.env" then some ["PORT=1111", "# x", "DB=postgres"] else none

/-- Filesystem before `applySharedDirs`: the canonical `/repo/data` does
not exist yet, and the slot checkout carries `data/seed.db` (the repo
test's first-deploy seeding scenario). -/
def exFsBefore : Fs :=
  [("/repo", .dir), ("/slot", .dir), ("/slot/data", .dir),
   ("/slot/data/seed.db", .file "seeded")]

/-- Filesystem after `applySharedDirs` with `shared_dirs = ["data"]`. -/
def exFsAfter : Fs := applySharedDirs "/repo" "/slot" ["data"] exFsBefore

/-! ## Helper lemmas -/

lemma releaseDeployLock_acquire (o : OrchState) (h : o.deploying = false) :
    releaseDeployLock { o with deploying := true } = o := by
  cases o
  simp_all [releaseDeployLock]

lemma drainSlot_commit (s : Slot) : (drainSlot s).commit = s.commit := by
  unfold drainSlot
  split <;> rfl

lemma string_data_append (a b : String) : (a ++ b).data = a.data ++ b.data := by
  cases a
  cases b
  rfl

lemma takeWhile_append_stop {p : Char → Bool} (xs ys : List Char) (c : Char)
    (hc : c ∈ xs) (hpc : p c = false) :
    (xs ++ ys).takeWhile p = xs.takeWhile p := by
  induction xs with
  | nil => cases hc
  | cons x xs ih =>
    simp only [List.cons_append, List.takeWhile_cons]
    cases hx : p x
    · rfl
    · rcases List.mem_cons.mp hc with hceq | hcm
      · subst hceq
        rw [hpc] at hx
        cases hx
      · rw [ih hcm]

lemma dropWhile_append_stop {p : Char → Bool} (xs ys : List Char) (c : Char)
    (hc : c ∈ xs) (hpc : p c = false) :
    (xs ++ ys).dropWhile p = xs.dropWhile p ++ ys := by
  induction xs with
  | nil => cases hc
  | cons x xs ih =>
    simp only [List.cons_append, List.dropWhile_cons]
    cases hx : p x
    · simp
    · rcases List.mem_cons.mp hc with hceq | hcm
      · subst hceq
        rw [hpc] at hx
        cases hx
      · simp [ih hcm]

lemma envEntryKey_append_stop (pre t : String) (hc : '=' ∈ pre.data) :
    envEntryKey (pre ++ t) = envEntryKey pre := by
  unfold envEntryKey
  rw [string_data_append, takeWhile_append_stop _ _ '=' hc (by decide)]

lemma envEntryVal_concat (pre t : String) (hc : '=' ∈ pre.data)
    (hl : pre.data.dropWhile (fun c => c ≠ '=') = ['=']) :
    envEntryVal (pre ++ t) = t := by
  unfold envEntryVal
  rw [string_data_append, dropWhile_append_stop _ _ '=' hc (by decide), hl]
  simp

lemma envValue_override (xs ys : List String) (e key : String)
    (he : envEntryKey e = key) (hys : ∀ y ∈ ys, envEntryKey y ≠ key) :
    envValue (xs ++ e :: ys) key = some (envEntryVal e) := by
  unfold envValue
  rw [List.filter_append]
  have h2 : ys.filter (fun x => envEntryKey x == key) = [] := by
    rw [List.filter_eq_nil_iff]
    intro y hy
    simp [hys y hy]
  have h1 : (e :: ys).filter (fun x => envEntryKey x == key) = [e] := by
    rw [List.filter_cons, h2]
    simp [he]
  rw [h1, List.getLast?_concat]
  rfl

lemma buildEnv_decomp (daemonEnv : List String) (repoDir envFile : String)
    (readFileLines : String → Option (List String)) (authSecret : String)
    (appPort intPort : Nat) :
    buildEnv daemonEnv repoDir envFile readFileLines authSecret appPort intPort =
      (daemonEnv ++ envFileEntries repoDir envFile readFileLines)
      ++ "SLOT_MACHINE=1" :: ("PORT=" ++ Nat.repr appPort)
        :: ("INTERNAL_PORT=" ++ Nat.repr intPort)
        :: (if authSecret ≠ "" then ["SLOT_MACHINE_AUTH_SECRET=" ++ authSecret]
            else []) := by
  unfold buildEnv envFileEntries
  by_cases hf : envFile = ""
  · simp only [hf]
    split <;> simp
  · simp only [if_pos hf, ne_eq, hf, not_false_iff, if_true]
    cases hr : readFileLines (resolveEnvPath repoDir envFile) <;>
      split <;> simp [List.append_assoc]

lemma doDeploy_busy (o : OrchState) (dataDir : String) (cfg : Config)
    (commit : String) (env : DeployEnv) (h : o.deploying = true) :
    doDeploy o dataDir cfg commit env =
      some { state := o, resp := { error := "deploy in progress" }, code := 409,
             events := [] } := by
  simp [doDeploy, acquireDeployLock, h]

lemma doRollback_busy (o : OrchState) (dataDir : String) (env : DeployEnv)
    (h : o.deploying = true) :
    doRollback o dataDir env =
      { state := o, resp := { error := "deploy in progress" }, code := 409,
        events := [] } := by
  simp [doRollback, h]

lemma doDeploy_unhealthy {a b : Nat} (o : OrchState) (dataDir : String)
    (cfg : Config) (commit : String) (env : DeployEnv)
    (hdep : o.deploying = false) (hprep : env.prepareOk = true)
    (hap : env.appPort = some a) (hip : env.intPort = some b)
    (hsetup : env.setupOk = true) (hstart : env.startOk = true)
    (hh : env.healthy = false) :
    doDeploy o dataDir cfg commit env =
      some { state := o, resp := { success := false }, code := 200,
             events := [.sigkillWait (baseName (joinPath dataDir "slot-staging"))] } := by
  simp [doDeploy, acquireDeployLock, hdep, hprep, hap, hip, hsetup, hstart, hh,
        startProcess, releaseDeployLock_acquire o hdep]

lemma doDeploy_ok {a b : Nat} {c8 : String} (o : OrchState) (dataDir : String)
    (cfg : Config) (commit : String) (env : DeployEnv)
    (hdep : o.deploying = false) (hprep : env.prepareOk = true)
    (hap : env.appPort = some a) (hip : env.intPort = some b)
    (hsetup : env.setupOk = true) (hstart : env.startOk = true)
    (hh : env.healthy = true) (hpm : env.promoteOk = true)
    (hc8 : goStringTake commit 8 = some c8) :
    doDeploy o dataDir cfg commit env = some {
      state := {
        live := some { name := "slot-" ++ c8, commit := commit,
                       dir := joinPath dataDir ("slot-" ++ c8),
                       alive := true, hasProc := true, appPort := a, intPort := b },
        prev := o.live.map drainSlot,
        deploying := false,
        lastDeploy := env.now,
        appProxy := setTarget o.appProxy a,
        intProxy := setTarget o.intProxy b },
      resp := { success := true, slot := "slot-" ++ c8, commit := commit,
                previousCommit := (o.live.map Slot.commit).getD "" },
      code := 200,
      events := (match o.prev with
          | some p => [.drain p.name, .removeWorktree p.dir]
          | none => ([] : List Event))
        ++ (match o.live with
          | some l => [.drain l.name]
          | none => ([] : List Event))
        ++ (.putSymlink (joinPath dataDir "live") ("slot-" ++ c8) ::
            (match o.live with
              | some l => [.putSymlink (joinPath dataDir "prev") l.name]
              | none => ([] : List Event)))
        ++ [.createStaging (joinPath dataDir ("slot-" ++ c8)) commit,
            .journal "deploy" commit ("slot-" ++ c8) ((o.live.map Slot.commit).getD "")] } := by
  simp only [doDeploy, acquireDeployLock, hdep, hprep, hap, hip, hsetup, hstart, hh, hpm, hc8,
    startProcess, releaseDeployLock, Bool.false_eq_true, if_false, ite_false, and_false,
    false_and]
  cases hl : o.live <;> cases hp : o.prev <;>
    simp [hl, hp, Option.map, Option.getD]

lemma doRollback_noPrev (o : OrchState) (dataDir : String) (env : DeployEnv)
    (hdep : o.deploying = false) (hprev : o.prev = none) :
    doRollback o dataDir env =
      { state := o, resp := { error := "no previous slot" }, code := 400,
        events := [] } := by
  simp [doRollback, hdep, hprev]

lemma doRollback_unhealthy {a b : Nat} (o : OrchState) (dataDir : String)
    (env : DeployEnv) (p : Slot)
    (hdep : o.deploying = false) (hprev : o.prev = some p)
    (hap : env.appPort = some a) (hip : env.intPort = some b)
    (hstart : env.startOk = true) (hh : env.healthy = false) :
    doRollback o dataDir env =
      { state := o, resp := { error := "health check failed" }, code := 500,
        events := [.sigkillWait (baseName p.dir)] } := by
  have hrel : releaseDeployLock { o with prev := some p, deploying := true } = o := by
    rw [← hprev]
    exact releaseDeployLock_acquire o hdep
  simp [doRollback, hdep, hprev, hap, hip, hstart, hh, startProcess, hrel]

lemma doRollback_ok {a b : Nat} (o : OrchState) (dataDir : String)
    (env : DeployEnv) (p : Slot)
    (hdep : o.deploying = false) (hprev : o.prev = some p)
    (hap : env.appPort = some a) (hip : env.intPort = some b)
    (hstart : env.startOk = true) (hh : env.healthy = true) :
    doRollback o dataDir env = {
      state := {
        live := some { name := p.name, commit := p.commit, dir := p.dir,
                       alive := true, hasProc := true, appPort := a, intPort := b },
        prev := o.live.map drainSlot,
        deploying := false,
        lastDeploy := env.now,
        appProxy := setTarget o.appProxy a,
        intProxy := setTarget o.intProxy b },
      resp := { success := true, slot := p.name, commit := p.commit },
      code := 200,
      events := (match o.live with
          | some l => [.drain l.name]
          | none => ([] : List Event))
        ++ (.putSymlink (joinPath dataDir "live") p.name ::
            (match o.live with
              | some l => [.putSymlink (joinPath dataDir "prev") l.name]
              | none => ([] : List Event)))
        ++ [.createStaging p.dir p.commit] } := by
  simp only [doRollback, hdep, hprev, hap, hip, hstart, hh, startProcess,
    releaseDeployLock, Bool.false_eq_true, if_false, ite_false]
  cases hl : o.live <;> simp [hl]

lemma doDeploy_shape (o : OrchState) (dataDir : String) (cfg : Config)
    (commit : String) (env : DeployEnv) (out : DeployOutcome)
    (h : doDeploy o dataDir cfg commit env = some out) :
    ((out.state.live = o.live ∧ out.state.prev = o.prev)
      ∨ (∃ sl, out.state.live = some sl ∧ sl.commit = commit
          ∧ out.state.prev = o.live.map drainSlot))
    ∧ (out.state.deploying = false ∨ out.state = o) := by
  unfold doDeploy acquireDeployLock at h
  split at h
  · cases h; exact ⟨Or.inl ⟨rfl, rfl⟩, Or.inr rfl⟩
  next o1 heq =>
    split at heq
    · exact absurd heq (by simp)
    · cases heq
      split at h
      · cases h; exact ⟨Or.inl ⟨rfl, rfl⟩, Or.inl rfl⟩
      · split at h
        · cases h; exact ⟨Or.inl ⟨rfl, rfl⟩, Or.inl rfl⟩
        next appPort hap =>
          split at h
          · cases h; exact ⟨Or.inl ⟨rfl, rfl⟩, Or.inl rfl⟩
          next intPort hip =>
            split at h
            · cases h; exact ⟨Or.inl ⟨rfl, rfl⟩, Or.inl rfl⟩
            · split at h
              · cases h; exact ⟨Or.inl ⟨rfl, rfl⟩, Or.inl rfl⟩
              · split at h
                · cases h; exact ⟨Or.inl ⟨rfl, rfl⟩, Or.inl rfl⟩
                · split at h
                  · cases h
                  next c8 hc8 =>
                    cases h
                    exact ⟨Or.inr ⟨_, rfl, rfl, rfl⟩, Or.inl rfl⟩

lemma doRollback_shape (o : OrchState) (dataDir : String) (env : DeployEnv) :
    (((doRollback o dataDir env).state.live = o.live
        ∧ (doRollback o dataDir env).state.prev = o.prev)
      ∨ (∃ p sl, o.prev = some p ∧ (doRollback o dataDir env).state.live = some sl
          ∧ sl.commit = p.commit
          ∧ (doRollback o dataDir env).state.prev = o.live.map drainSlot))
    ∧ ((doRollback o dataDir env).state.deploying = false
        ∨ (doRollback o dataDir env).state = o) := by
  unfold doRollback
  split
  · exact ⟨Or.inl ⟨rfl, rfl⟩, Or.inr rfl⟩
  · split
    · exact ⟨Or.inl ⟨rfl, rfl⟩, Or.inr rfl⟩
    next p hp =>
      split
      · exact ⟨Or.inl ⟨rfl, rfl⟩, Or.inl rfl⟩
      next appPort hap =>
        split
        · exact ⟨Or.inl ⟨rfl, rfl⟩, Or.inl rfl⟩
        next intPort hip =>
          split
          · exact ⟨Or.inl ⟨rfl, rfl⟩, Or.inl rfl⟩
          · split
            · exact ⟨Or.inl ⟨rfl, rfl⟩, Or.inl rfl⟩
            · exact ⟨Or.inr ⟨p, _, hp, rfl, rfl, rfl⟩, Or.inl rfl⟩

/-! ## C1 — clearTarget and the listener -/

/-- Claim C1 counterexample: the claim says `clear_target` "sets the
upstream port to 0 while the TCP listener stays alive, so every request
that arrives while the target is cleared receives an HTTP 503".  On the
code (`proxy.go` lines 39–47) `clearTarget` also runs `p.srv.Close()` and
drops the server, so after `clearTarget` the listener is gone and an
arriving request is refused at the TCP level, not answered with 503.  The
repository's own test asserts exactly this refusal ("expected connection
refused after clearTarget"). -/
theorem C1_counterexample :
    (clearTarget exProxyServing).srvLive = false
    ∧ requestProxy (clearTarget exProxyServing) "/" = .refused
    ∧ requestProxy (clearTarget exProxyServing) "/" ≠ .handled .noLiveSlot := by
  decide

/-- Claim C1, amended: `clearTarget` sets the upstream port to 0 and
closes the TCP listener, so a request arriving while the target is
cleared is refused at the connection level; the HTTP 503 "no live slot"
response is produced only when the handler runs while the recorded port
is 0 (a request already accepted, or a proxy whose listener is not
managed). -/
theorem C1_clear_target_closes (p : DynamicProxy) (path : String)
    (h : interceptHit p.hasIntercept path = false) :
    (clearTarget p).port = 0
    ∧ (clearTarget p).srvLive = false
    ∧ requestProxy (clearTarget p) path = .refused
    ∧ serveHTTP { p with port := 0 } path = .noLiveSlot := by
  refine ⟨rfl, rfl, ?_, ?_⟩
  · simp [requestProxy, clearTarget]
  · simp [serveHTTP, h]

/-- Claim C1 witness: the amended theorem applied to a serving proxy and
the root path. -/
theorem C1_witness :
    (clearTarget exProxyServing).port = 0
    ∧ (clearTarget exProxyServing).srvLive = false
    ∧ requestProxy (clearTarget exProxyServing) "/" = .refused
    ∧ serveHTTP { exProxyServing with port := 0 } "/" = .noLiveSlot :=
  C1_clear_target_closes exProxyServing "/" (by decide)

/-! ## C2 — intercept dispatch -/

/-- Claim C2: the claim (and the spec) say a configured intercept handler
receives exactly the paths equal to "/chat", beginning with "/chat/", or
beginning with "/agent/".  The code (`proxy.go` line 61) only dispatches
"/agent/" prefixes and the exact path "/chat": a request for
"/chat/config" is forwarded to the upstream instead, although the agent
service itself handles "/chat/config" and the repository's spec test
requires it to be served through the proxy — the code contradicts its own
tests, so the dropped "/chat/" prefix is a slip in the intercept
condition. -/
theorem C2_chat_prefix_forwarded :
    interceptHit true "/chat/config" = false
    ∧ serveHTTP { port := 5177, addr := "127.0.0.1:3000", srvLive := true,
                  hasIntercept := true } "/chat/config" = .forward 5177
    ∧ specInterceptPath "/chat/config" = true
    ∧ interceptHit true "/chat" = true
    ∧ interceptHit true "/agent/conversations" = true := by
  decide

/-! ## C4, C5, C6 — pipeline error handling -/





/-- Claim C4: when the started process fails the health check, the
pipeline SIGKILLs the new process group and waits for its done signal
(the `sigkillWait` event), returns `success:false` with HTTP 200, and the
state — in particular the live and prev slots, hence `status.live_commit`
and `status.previous_commit` — is exactly what it was before the deploy. -/
theorem C4_unhealthy_deploy_no_change {a b : Nat} (o : OrchState) (dataDir : String)
    (cfg : Config) (commit : String) (env : DeployEnv)
    (hdep : o.deploying = false) (hprep : env.prepareOk = true)
    (hap : env.appPort = some a) (hip : env.intPort = some b)
    (hsetup : env.setupOk = true) (hstart : env.startOk = true)
    (hh : env.healthy = false) :
    doDeploy o dataDir cfg commit env =
      some { state := o, resp := { success := false }, code := 200,
             events := [.sigkillWait (baseName (joinPath dataDir "slot-staging"))] }
    ∧ handleStatus (stateAfterDeploy (doDeploy o dataDir cfg commit env) o)
        = handleStatus o := by
  have h := doDeploy_unhealthy o dataDir cfg commit env hdep hprep hap hip hsetup hstart hh
  refine ⟨h, ?_⟩
  rw [h]
  rfl

/-- Claim C4 witness: the unhealthy-deploy theorem at the boot state with
the all-success-but-unhealthy oracle. -/
theorem C4_witness :
    doDeploy exInit exDataDir exCfg exCommitA exEnvUnhealthy =
      some { state := exInit, resp := { success := false }, code := 200,
             events := [.sigkillWait (baseName (joinPath exDataDir "slot-staging"))] }
    ∧ handleStatus (stateAfterDeploy (doDeploy exInit exDataDir exCfg exCommitA exEnvUnhealthy) exInit)
        = handleStatus exInit :=
  C4_unhealthy_deploy_no_change exInit exDataDir exCfg exCommitA exEnvUnhealthy
    rfl rfl rfl rfl rfl rfl rfl

/-- Claim C5: while `deploying` is true, both `POST /deploy` and
`POST /rollback` are rejected with HTTP 409 and error "deploy in
progress" without any state change; the flag is set under the mutex at
pipeline entry (`acquireDeployLock`) and is false again in the final
state of every completed pipeline run, so the sequential model admits at
most one running pipeline at a time. -/
theorem C5_busy_rejection (o : OrchState) (dataDir : String) (cfg : Config)
    (commit : String) (env envR : DeployEnv) (hbusy : o.deploying = true) :
    doDeploy o dataDir cfg commit env =
      some { state := o, resp := { error := "deploy in progress" }, code := 409,
             events := [] }
    ∧ doRollback o dataDir envR =
      { state := o, resp := { error := "deploy in progress" }, code := 409,
        events := [] }
    ∧ (∀ s : OrchState, s.deploying = false →
        acquireDeployLock s = some { s with deploying := true })
    ∧ (∀ (s : OrchState) (dd : String) (c : Config) (cm : String) (e : DeployEnv)
        (out : DeployOutcome), s.deploying = false →
        doDeploy s dd c cm e = some out → out.state.deploying = false)
    ∧ (∀ (s : OrchState) (dd : String) (e : DeployEnv), s.deploying = false →
        (doRollback s dd e).state.deploying = false) := by
  refine ⟨doDeploy_busy o dataDir cfg commit env hbusy,
          doRollback_busy o dataDir envR hbusy, ?_, ?_, ?_⟩
  · intro s hs
    simp [acquireDeployLock, hs]
  · intro s dd c cm e out hs hout
    rcases (doDeploy_shape s dd c cm e out hout).2 with hf | hsame
    · exact hf
    · rw [hsame]; exact hs
  · intro s dd e hs
    rcases (doRollback_shape s dd e).2 with hf | hsame
    · exact hf
    · rw [hsame]; exact hs

/-- Claim C5 witness: the busy-rejection theorem at a concrete busy
state. -/
theorem C5_witness :
    doDeploy exBusy exDataDir exCfg exCommitA exEnvOk =
      some { state := exBusy, resp := { error := "deploy in progress" }, code := 409,
             events := [] }
    ∧ doRollback exBusy exDataDir exEnvOk =
      { state := exBusy, resp := { error := "deploy in progress" }, code := 409,
        events := [] }
    ∧ (∀ s : OrchState, s.deploying = false →
        acquireDeployLock s = some { s with deploying := true })
    ∧ (∀ (s : OrchState) (dd : String) (c : Config) (cm : String) (e : DeployEnv)
        (out : DeployOutcome), s.deploying = false →
        doDeploy s dd c cm e = some out → out.state.deploying = false)
    ∧ (∀ (s : OrchState) (dd : String) (e : DeployEnv), s.deploying = false →
        (doRollback s dd e).state.deploying = false) :=
  C5_busy_rejection exBusy exDataDir exCfg exCommitA exEnvOk exEnvOk rfl

/-- Claim C6: rollback rejects with HTTP 400 and error "no previous
slot" when no prev slot exists, leaving the state unchanged; returns
HTTP 500 with error "health check failed" after SIGKILLing the restarted
process when its health check fails (state unchanged); and on success
returns HTTP 200 with `success:true`, the prev slot's name and its
commit. -/
theorem C6_rollback_responses (a b : Nat) (o : OrchState) (dataDir : String)
    (env : DeployEnv) (hdep : o.deploying = false) :
    (o.prev = none →
      doRollback o dataDir env =
        { state := o, resp := { error := "no previous slot" }, code := 400,
          events := [] })
    ∧ (∀ p, o.prev = some p → env.appPort = some a → env.intPort = some b →
        env.startOk = true → env.healthy = false →
        doRollback o dataDir env =
          { state := o, resp := { error := "health check failed" }, code := 500,
            events := [.sigkillWait (baseName p.dir)] })
    ∧ (∀ p, o.prev = some p → env.appPort = some a → env.intPort = some b →
        env.startOk = true → env.healthy = true →
        (doRollback o dataDir env).resp =
          { success := true, slot := p.name, commit := p.commit }
        ∧ (doRollback o dataDir env).code = 200) := by
  refine ⟨fun hprev => doRollback_noPrev o dataDir env hdep hprev,
          fun p hprev hap hip hstart hh =>
            doRollback_unhealthy o dataDir env p hdep hprev hap hip hstart hh,
          fun p hprev hap hip hstart hh => ?_⟩
  rw [doRollback_ok o dataDir env p hdep hprev hap hip hstart hh]
  exact ⟨rfl, rfl⟩

/-- Claim C6 witness: the success branch of the rollback theorem at a
concrete state with a cold previous slot. -/
theorem C6_witness :
    (doRollback exWithPrev exDataDir exEnvOk).resp =
      { success := true, slot := exSlotPrev.name, commit := exSlotPrev.commit }
    ∧ (doRollback exWithPrev exDataDir exEnvOk).code = 200 :=
  (C6_rollback_responses 4001 4002 exWithPrev exDataDir exEnvOk rfl).2.2
    exSlotPrev rfl rfl rfl rfl rfl


/-! ## C3 — the prev ≠ live invariant -/

/-- Claim C3 counterexample: the claim says that in every reachable state
where both the live and prev slots exist their commit hashes differ, in
particular after a successful re-deploy of the commit that is already
live.  On the code the promotion unconditionally sets `prev := old live`
and `live := new slot`, so re-deploying the live commit yields a
reachable state whose live and prev slots both hold that commit: deploy
`exCommitA` twice from the boot state. -/
theorem C3_counterexample :
    Reachable exDataDir exCfg exStAA
    ∧ exStAA.live.map Slot.commit = some exCommitA
    ∧ exStAA.prev.map Slot.commit = some exCommitA := by
  refine ⟨?_, rfl, rfl⟩
  have h0 : Reachable exDataDir exCfg exInit := Reachable.boot exProxyApp exProxyInt
  have h1 : doDeploy exInit exDataDir exCfg exCommitA exEnvOk = some exOutA := rfl
  have r1 : Reachable exDataDir exCfg exStA :=
    Reachable.deployStep exCommitA exEnvOk h0 h1
  have h2 : doDeploy exStA exDataDir exCfg exCommitA exEnvOk2 = some exOutAA := rfl
  exact Reachable.deployStep exCommitA exEnvOk2 r1 h2

/-- Claim C3, amended: the invariant `prev.commit ≠ live.commit` holds in
every state reachable by deploys and rollbacks provided each deploy's
commit differs from the commit currently live; re-deploying the live
commit itself is exactly the case that violates it (see the
counterexample). -/
theorem C3_distinct_commits_invariant (dataDir : String) (cfg : Config)
    (s : OrchState) (h : ReachableDistinct dataDir cfg s) :
    ∀ l p, s.live = some l → s.prev = some p → p.commit ≠ l.commit := by
  induction h with
  | boot ap ip =>
    intro l p hl hp
    cases hl
  | deployStep commit env hre hguard hstep ih =>
    intro l p hl hp
    rcases (doDeploy_shape _ _ _ _ _ _ hstep).1 with ⟨hl0, hp0⟩ | ⟨sl, hl0, hcm, hp0⟩
    · exact ih l p (hl0.symm.trans hl) (hp0.symm.trans hp)
    · have hsl : sl = l := by
        have := hl0.symm.trans hl
        injection this
      subst hsl
      cases hol : ‹OrchState›.live with
      | none =>
        exact absurd (hp0.symm.trans hp) (by rw [hol]; simp)
      | some ol =>
        have hpd : some (drainSlot ol) = some p := by
          rw [← hp]
          rw [hp0, hol]
          rfl
        have hpeq : drainSlot ol = p := by injection hpd
        rw [← hpeq, drainSlot_commit, hcm]
        exact hguard ol hol
  | rollbackStep env hre ih =>
    intro l p hl hp
    rcases (doRollback_shape _ _ env).1 with ⟨hl0, hp0⟩ | ⟨p0, sl, hprev0, hl0, hcm, hp0⟩
    · exact ih l p (hl0.symm.trans hl) (hp0.symm.trans hp)
    · have hsl : sl = l := by
        have := hl0.symm.trans hl
        injection this
      subst hsl
      cases hol : ‹OrchState›.live with
      | none =>
        exact absurd (hp0.symm.trans hp) (by rw [hol]; simp)
      | some ol =>
        have hpd : some (drainSlot ol) = some p := by
          rw [← hp]
          rw [hp0, hol]
          rfl
        have hpeq : drainSlot ol = p := by injection hpd
        rw [← hpeq, drainSlot_commit, hcm]
        exact Ne.symm (ih ol p0 hol hprev0)

/-- Claim C3 witness: the amended invariant applied to the state reached
by deploying `exCommitA` then the distinct `exCommitB`; its live and prev
commits differ. -/
theorem C3_witness :
    exPrevAB.commit ≠ exLiveAB.commit := by
  have h0 : ReachableDistinct exDataDir exCfg exInit :=
    ReachableDistinct.boot exProxyApp exProxyInt
  have g1 : ∀ l, exInit.live = some l → l.commit ≠ exCommitA := by
    intro l hl
    rw [show exInit.live = none from rfl] at hl
    cases hl
  have h1 : doDeploy exInit exDataDir exCfg exCommitA exEnvOk = some exOutA := rfl
  have r1 : ReachableDistinct exDataDir exCfg exStA :=
    ReachableDistinct.deployStep exCommitA exEnvOk h0 g1 h1
  have g2 : ∀ l, exStA.live = some l → l.commit ≠ exCommitB := by
    intro l hl
    have hc : exStA.live.map Slot.commit = some l.commit := by
      rw [hl]
      rfl
    have hc2 : (some exCommitA : Option String) = some l.commit :=
      (show exStA.live.map Slot.commit = some exCommitA from rfl).symm.trans hc
    injection hc2 with hc3
    rw [← hc3]
    decide
  have h2 : doDeploy exStA exDataDir exCfg exCommitB exEnvOk2 = some exOutAB := rfl
  have r2 : ReachableDistinct exDataDir exCfg exStAB :=
    ReachableDistinct.deployStep exCommitB exEnvOk2 r1 g2 h2
  exact C3_distinct_commits_invariant exDataDir exCfg exStAB r2 exLiveAB exPrevAB rfl rfl

/-! ## C7 — environment composition -/

/-- Claim C7: the composed process environment is the daemon environment,
extended by the parsed `env_file` entries (blank and `#` lines ignored,
whitespace trimmed, lines without `=` skipped, a relative path resolved
against the repo directory), with `SLOT_MACHINE=1`, `PORT=<app_port>` and
`INTERNAL_PORT=<int_port>` appended after all of them — in final position
whenever the agent subsystem's auth secret is absent — so their
last-occurrence-wins values always override anything the env file set. -/
theorem C7_build_env_final (daemonEnv : List String) (repoDir envFile : String)
    (readFileLines : String → Option (List String)) (authSecret : String)
    (appPort intPort : Nat) :
    (authSecret = "" →
      buildEnv daemonEnv repoDir envFile readFileLines authSecret appPort intPort =
        daemonEnv ++ envFileEntries repoDir envFile readFileLines
          ++ ["SLOT_MACHINE=1", "PORT=" ++ Nat.repr appPort,
              "INTERNAL_PORT=" ++ Nat.repr intPort])
    ∧ envValue (buildEnv daemonEnv repoDir envFile readFileLines authSecret appPort intPort)
        "SLOT_MACHINE" = some "1"
    ∧ envValue (buildEnv daemonEnv repoDir envFile readFileLines authSecret appPort intPort)
        "PORT" = some (Nat.repr appPort)
    ∧ envValue (buildEnv daemonEnv repoDir envFile readFileLines authSecret appPort intPort)
        "INTERNAL_PORT" = some (Nat.repr intPort)
    ∧ loadEnvFile ["", "   ", "# comment", "  KEY=VALUE  ", "noequals", "A=1"]
        = ["KEY=VALUE", "A=1"]
    ∧ resolveEnvPath "/repo" ".env" = "/repo/.env"
    ∧ resolveEnvPath "/repo" "/etc/app.env" = "/etc/app.env" := by
  have hrest : ∀ y ∈ (if authSecret ≠ "" then
      ["SLOT_MACHINE_AUTH_SECRET=" ++ authSecret] else ([] : List String)),
      envEntryKey y = "SLOT_MACHINE_AUTH_SECRET" := by
    split
    · intro y hy
      rcases List.mem_singleton.mp hy with rfl
      rw [envEntryKey_append_stop _ _ (by decide)]
      decide
    · intro y hy
      cases hy
  refine ⟨?_, ?_, ?_, ?_, by decide, by decide, by decide⟩
  · intro hsec
    rw [buildEnv_decomp, if_neg (by simp [hsec])]
  · rw [buildEnv_decomp]
    rw [envValue_override _ _ _ _ (by decide) ?_]
    · rfl
    · intro y hy
      rcases List.mem_cons.mp hy with rfl | hy2
      · rw [envEntryKey_append_stop _ _ (by decide)]
        decide
      rcases List.mem_cons.mp hy2 with rfl | hy3
      · rw [envEntryKey_append_stop _ _ (by decide)]
        decide
      · rw [hrest y hy3]
        decide
  · have hsh : (daemonEnv ++ envFileEntries repoDir envFile readFileLines)
        ++ "SLOT_MACHINE=1" :: ("PORT=" ++ Nat.repr appPort)
          :: ("INTERNAL_PORT=" ++ Nat.repr intPort)
          :: (if authSecret ≠ "" then ["SLOT_MACHINE_AUTH_SECRET=" ++ authSecret] else [])
      = ((daemonEnv ++ envFileEntries repoDir envFile readFileLines) ++ ["SLOT_MACHINE=1"])
        ++ ("PORT=" ++ Nat.repr appPort)
          :: ("INTERNAL_PORT=" ++ Nat.repr intPort)
          :: (if authSecret ≠ "" then ["SLOT_MACHINE_AUTH_SECRET=" ++ authSecret] else []) := by
      simp
    rw [buildEnv_decomp, hsh]
    rw [envValue_override _ _ _ _ (by rw [envEntryKey_append_stop _ _ (by decide)]; decide) ?_]
    · rw [envEntryVal_concat _ _ (by decide) (by decide)]
    · intro y hy
      rcases List.mem_cons.mp hy with rfl | hy2
      · rw [envEntryKey_append_stop _ _ (by decide)]
        decide
      · rw [hrest y hy2]
        decide
  · have hsh : (daemonEnv ++ envFileEntries repoDir envFile readFileLines)
        ++ "SLOT_MACHINE=1" :: ("PORT=" ++ Nat.repr appPort)
          :: ("INTERNAL_PORT=" ++ Nat.repr intPort)
          :: (if authSecret ≠ "" then ["SLOT_MACHINE_AUTH_SECRET=" ++ authSecret] else [])
      = ((daemonEnv ++ envFileEntries repoDir envFile readFileLines)
          ++ ["SLOT_MACHINE=1", "PORT=" ++ Nat.repr appPort])
        ++ ("INTERNAL_PORT=" ++ Nat.repr intPort)
          :: (if authSecret ≠ "" then ["SLOT_MACHINE_AUTH_SECRET=" ++ authSecret] else []) := by
      simp
    rw [buildEnv_decomp, hsh]
    rw [envValue_override _ _ _ _ (by rw [envEntryKey_append_stop _ _ (by decide)]; decide) ?_]
    · rw [envEntryVal_concat _ _ (by decide) (by decide)]
    · intro y hy
      rw [hrest y hy]
      decide

/-- Claim C7 witness: with a daemon environment and an env file that both
set `PORT`, the spawned process still observes the authoritative
`PORT=4001`. -/
theorem C7_witness :
    envValue (buildEnv exDaemonEnv "/repo" ".env" exReadEnv "" 4001 4002) "PORT"
      = some (Nat.repr 4001) :=
  (C7_build_env_final exDaemonEnv "/repo" ".env" exReadEnv "" 4001 4002).2.2.1

/-! ## C8 — deploy, deploy, rollback round trip -/

/-- Claim C8: from empty state, a successful Deploy(A), a successful
Deploy(B) and a successful Rollback leave the orchestrator with live
commit A (`status.live_commit = A`) and B as the previous commit. -/
theorem C8_deploy_deploy_rollback (s0 : OrchState) (dataDir : String) (cfg : Config)
    (A B a8 b8 : String) (envA envB envR : DeployEnv) (a1 b1 a2 b2 a3 b3 : Nat)
    (h0live : s0.live = none) (h0prev : s0.prev = none) (h0dep : s0.deploying = false)
    (hAB : A ≠ B)
    (hA8 : goStringTake A 8 = some a8) (hB8 : goStringTake B 8 = some b8)
    (hA1 : envA.prepareOk = true) (hA2 : envA.appPort = some a1)
    (hA3 : envA.intPort = some b1) (hA4 : envA.setupOk = true)
    (hA5 : envA.startOk = true) (hA6 : envA.healthy = true) (hA7 : envA.promoteOk = true)
    (hB1 : envB.prepareOk = true) (hB2 : envB.appPort = some a2)
    (hB3 : envB.intPort = some b2) (hB4 : envB.setupOk = true)
    (hB5 : envB.startOk = true) (hB6 : envB.healthy = true) (hB7 : envB.promoteOk = true)
    (hR2 : envR.appPort = some a3) (hR3 : envR.intPort = some b3)
    (hR5 : envR.startOk = true) (hR6 : envR.healthy = true) :
    ∃ out1 out2 : DeployOutcome,
      doDeploy s0 dataDir cfg A envA = some out1
      ∧ out1.resp.success = true
      ∧ doDeploy out1.state dataDir cfg B envB = some out2
      ∧ out2.resp.success = true
      ∧ (doRollback out2.state dataDir envR).resp.success = true
      ∧ (handleStatus (doRollback out2.state dataDir envR).state).liveCommit = A
      ∧ (handleStatus (doRollback out2.state dataDir envR).state).previousCommit = B := by
  have h1 := doDeploy_ok s0 dataDir cfg A envA h0dep hA1 hA2 hA3 hA4 hA5 hA6 hA7 hA8
  rw [h0live, h0prev] at h1
  simp only [Option.map_none', Option.getD_none, List.nil_append, List.append_nil] at h1
  have h2 := doDeploy_ok
    ({ live := some { name := "slot-" ++ a8, commit := A,
                      dir := joinPath dataDir ("slot-" ++ a8),
                      alive := true, hasProc := true, appPort := a1, intPort := b1 },
       prev := none, deploying := false, lastDeploy := envA.now,
       appProxy := setTarget s0.appProxy a1,
       intProxy := setTarget s0.intProxy b1 } : OrchState)
    dataDir cfg B envB rfl hB1 hB2 hB3 hB4 hB5 hB6 hB7 hB8
  simp only [Option.map_some', Option.getD_some, drainSlot, if_true, ite_true] at h2
  have h3 := doRollback_ok
    ({ live := some { name := "slot-" ++ b8, commit := B,
                      dir := joinPath dataDir ("slot-" ++ b8),
                      alive := true, hasProc := true, appPort := a2, intPort := b2 },
       prev := some { name := "slot-" ++ a8, commit := A,
                      dir := joinPath dataDir ("slot-" ++ a8),
                      alive := false, hasProc := true, appPort := a1, intPort := b1 },
       deploying := false, lastDeploy := envB.now,
       appProxy := setTarget (setTarget s0.appProxy a1) a2,
       intProxy := setTarget (setTarget s0.intProxy b1) b2 } : OrchState)
    dataDir envR
    ({ name := "slot-" ++ a8, commit := A, dir := joinPath dataDir ("slot-" ++ a8),
       alive := false, hasProc := true, appPort := a1, intPort := b1 } : Slot)
    rfl rfl hR2 hR3 hR5 hR6
  refine ⟨_, _, h1, rfl, h2, rfl, ?_, ?_, ?_⟩
  · rw [h3]
  · rw [h3]
    simp [handleStatus, drainSlot, apply_ite]
  · rw [h3]
    simp [handleStatus, drainSlot, apply_ite]

/-- Claim C8 witness: the round trip with the two concrete distinct
commits and the concrete oracles. -/
theorem C8_witness :
    ∃ out1 out2 : DeployOutcome,
      doDeploy exInit exDataDir exCfg exCommitA exEnvOk = some out1
      ∧ out1.resp.success = true
      ∧ doDeploy out1.state exDataDir exCfg exCommitB exEnvOk2 = some out2
      ∧ out2.resp.success = true
      ∧ (doRollback out2.state exDataDir exEnvOk3).resp.success = true
      ∧ (handleStatus (doRollback out2.state exDataDir exEnvOk3).state).liveCommit
          = exCommitA
      ∧ (handleStatus (doRollback out2.state exDataDir exEnvOk3).state).previousCommit
          = exCommitB :=
  C8_deploy_deploy_rollback exInit exDataDir exCfg exCommitA exCommitB
    "a1b2c3d4" "beefcafe" exEnvOk exEnvOk2 exEnvOk3 4001 4002 4003 4004 4005 4006
    rfl rfl rfl (by decide) rfl rfl
    rfl rfl rfl rfl rfl rfl rfl
    rfl rfl rfl rfl rfl rfl rfl
    rfl rfl rfl rfl

/-! ## C9 — shared directories -/

/-- Claim C9: the claim (with the spec and the repository's own test
"seeds repo dir from slot checkout on first deploy") says that when the
canonical shared directory does not yet exist, `applySharedDirs`
preserves the slot checkout's contents by seeding the canonical location
from them.  The code only creates an empty canonical directory
(`os.MkdirAll`), then deletes the slot's copy (`os.RemoveAll`) and
symlinks — the checkout's `data/seed.db` is destroyed, never copied, so
the code contradicts its own test.  The skip rules for absolute and
dot names do hold (last conjunct). -/
theorem C9_shared_dir_not_seeded :
    fsLookup exFsAfter "/repo/data" = some .dir
    ∧ fsLookup exFsAfter "/repo/data/seed.db" = none
    ∧ fsLookup exFsAfter "/slot/data" = some (.symlink "/repo/data")
    ∧ fsLookup exFsAfter "/slot/data/seed.db" = none
    ∧ applySharedDirs "/repo" "/slot" ["/etc", ".", ".."] exFsBefore = exFsBefore := by
  decide

/-! ## C10 — short commits panic the promotion -/

/-- Claim C10: `handleDeploy` admits any non-empty commit string, and for
a commit of byte length 1–7 whose process passes the health check the
promotion step evaluates `commit[:8]`, which is out of bounds — the
pipeline panics (`none` in this model), so the slot-name computation is
not total over the inputs the API admits. -/
theorem C10_short_commit_panics {a b : Nat} (o : OrchState) (dataDir : String)
    (cfg : Config) (commit : String) (env : DeployEnv)
    (hne : commit ≠ "") (hlen : commit.data.length < 8)
    (hdep : o.deploying = false) (hprep : env.prepareOk = true)
    (hap : env.appPort = some a) (hip : env.intPort = some b)
    (hsetup : env.setupOk = true) (hstart : env.startOk = true)
    (hh : env.healthy = true) :
    handleDeployParse (some commit) = .accepted commit
    ∧ doDeploy o dataDir cfg commit env = none := by
  constructor
  · simp [handleDeployParse, hne]
  · have hc8 : goStringTake commit 8 = none := by
      unfold goStringTake
      rw [if_neg (by omega)]
    simp [doDeploy, acquireDeployLock, hdep, hprep, hap, hip, hsetup, hstart, hh, hc8,
          startProcess]

/-- Claim C10 witness: the 7-character short hash "abc1234" passes the
API validation and panics the healthy deploy pipeline. -/
theorem C10_witness :
    handleDeployParse (some "abc1234") = .accepted "abc1234"
    ∧ doDeploy exInit exDataDir exCfg "abc1234" exEnvOk = none :=
  C10_short_commit_panics exInit exDataDir exCfg "abc1234" exEnvOk (by decide) (by decide)
    rfl rfl rfl rfl rfl rfl rfl

end SlotMachine
